import Mathlib

/-!
Verification of the landomo-italy-immobiliare scraper core.

This file shallowly embeds the parts of the repository relevant to the
claims under scrutiny:

* the `Property` record produced by `src/parser.ts` (`parseListing`);
* the worker `ImmobiliareWorker.processListing` and `calculateChecksum`
  (second document of `src/schema.sql`);
* the verifier `ImmobiliareVerifier.verifyProperty` /
  `processVerification` (`src/worker-verifier.ts`) and
  `markPropertyInactive` (`src/core.ts`);
* the coordinator `ImmobiliareCoordinator.scrapeAllCities`
  (`src/unnamed/part_000`);
* the transformer `calculatePricePerSqm` / `transformToStandard`
  (`src/transformer.ts`).

The `RedisQueue` (`./redis-queue`) and `ScraperDatabase` (`./database`)
modules are imported by the source but their implementation files are not
part of the repository snapshot; the operations the claims need are
modelled from the specification (each such definition carries a doc
comment starting with `Modelled from the spec:`).

JavaScript numbers are modelled as `Int` where the source only
serializes or compares them and as `Rat` where the source divides
(`calculatePricePerSqm`).  State-mutating asynchronous code is modelled
by explicit state passing; a thrown exception is modelled with `Except`,
carrying the state as mutated up to the throw point.
-/

/-- Nested details of a listing, as built by `extractDetails` in
`src/parser.ts`.  Fields the claims never inspect are kept so that
hyperproperty claims about "unrelated fields" are meaningful. -/
structure PropertyDetails where
  bedrooms : Option Int
  bathrooms : Option Int
  sqm : Option Rat
  floor : Option Int
  totalFloors : Option Int
  rooms : Option Int
  description : Option String
  deriving DecidableEq, Repr

/-- Location of a listing, as built by `parseListing` in `src/parser.ts`. -/
structure PropertyLocation where
  address : Option String
  city : String
  region : Option String
  country : String
  deriving DecidableEq, Repr

/-- A parsed listing record (`Property` of `@shared/types`, as constructed
by `parseListing` in `src/parser.ts`): price defaults to `0` when absent,
`title` is always a string, `description` is optional
(`realEstate.description`). -/
structure Property where
  id : String
  url : String
  title : String
  price : Int
  currency : String
  propertyType : String
  transactionType : String
  location : PropertyLocation
  details : PropertyDetails
  features : List String
  images : List String
  description : Option String
  scrapedAt : String
  deriving DecidableEq, Repr

/-- Two-digit lowercase hexadecimal rendering of a byte, used for JSON
`\u00XX` escapes of control characters. -/
def hexDigit (n : Nat) : Char :=
  if n < 10 then Char.ofNat (48 + n) else Char.ofNat (87 + n)

/-- JSON escaping of one character, following `JSON.stringify`: quote and
backslash are escaped, the named control escapes are used for
U+0008..U+000D (minus U+000B), other control characters become
`\u00XX`, everything else is emitted verbatim. -/
def jsonEscapeChar (c : Char) : List Char :=
  if c = '"' then ['\\', '"']
  else if c = '\\' then ['\\', '\\']
  else if c = Char.ofNat 8 then ['\\', 'b']
  else if c = Char.ofNat 9 then ['\\', 't']
  else if c = Char.ofNat 10 then ['\\', 'n']
  else if c = Char.ofNat 12 then ['\\', 'f']
  else if c = Char.ofNat 13 then ['\\', 'r']
  else if c.toNat < 32 then
    ['\\', 'u', '0', '0', hexDigit (c.toNat / 16), hexDigit (c.toNat % 16)]
  else [c]

/-- Rendering of a string value by `JSON.stringify` (including the
surrounding quotes). -/
def jsonString (s : String) : String :=
  String.mk ('"' :: (s.data.map jsonEscapeChar).flatten ++ ['"'])

/-- Serialization of the checksum object
`{price: property.price, title: property.title, description: property.description}`
by `JSON.stringify` (second document of `src/schema.sql`, lines 391-395).
`JSON.stringify` omits a key whose value is `undefined`, which happens
exactly when the parsed record has no description. -/
def checksumJson (price : Int) (title : String) (description : Option String) : String :=
  match description with
  | none => "\x7b\"price\":" ++ toString price ++
      ",\"title\":" ++ jsonString title ++ "\x7d"
  | some d => "\x7b\"price\":" ++ toString price ++
      ",\"title\":" ++ jsonString title ++
      ",\"description\":" ++ jsonString d ++ "\x7d"

/-- UTF-8 encoding of one character as a list of byte values, as
performed by `Buffer.from(data)` on a JavaScript string. -/
def utf8Bytes (c : Char) : List Nat :=
  let n := c.toNat
  if n < 128 then [n]
  else if n < 2048 then [192 + n / 64, 128 + n % 64]
  else if n < 65536 then [224 + n / 4096, 128 + (n / 64) % 64, 128 + n % 64]
  else [240 + n / 262144, 128 + (n / 4096) % 64, 128 + (n / 64) % 64, 128 + n % 64]

/-- UTF-8 byte sequence of a string. -/
def strUtf8 (s : String) : List Nat :=
  (s.data.map utf8Bytes).flatten

/-- The base64 alphabet character for an index in `0..63`. -/
def b64Char (n : Nat) : Char :=
  "ABCDEFGHIJKLMNOPQRSTUVWXYZabcdefghijklmnopqrstuvwxyz0123456789+/".data.getD n 'A'

/-- Standard base64 encoding of a byte list (RFC 4648, with `=`
padding), as produced by `Buffer.prototype.toString('base64')`. -/
def base64Encode : List Nat → List Char
  | b1 :: b2 :: b3 :: rest =>
      b64Char (b1 / 4) :: b64Char ((b1 % 4) * 16 + b2 / 16) ::
      b64Char ((b2 % 16) * 4 + b3 / 64) :: b64Char (b3 % 64) ::
      base64Encode rest
  | [b1, b2] =>
      [b64Char (b1 / 4), b64Char ((b1 % 4) * 16 + b2 / 16),
       b64Char ((b2 % 16) * 4), '=']
  | [b1] =>
      [b64Char (b1 / 4), b64Char ((b1 % 4) * 16), '=', '=']
  | [] => []

/-- Embedding of `ImmobiliareWorker.calculateChecksum` (second document
of `src/schema.sql`, lines 390-397): serialize
`{price, title, description}` as JSON, base64-encode its UTF-8 bytes,
and keep the first 32 characters. -/
def calculateChecksum (p : Property) : String :=
  String.mk ((base64Encode (strUtf8 (checksumJson p.price p.title p.description))).take 32)

/-- Lookup in an association list keyed by id (first match wins, like a
Redis hash field read or a SQL primary-key lookup in our model). -/
def assocLookup {α : Type} : List (String × α) → String → Option α
  | [], _ => none
  | (k, v) :: t, id => if k = id then some v else assocLookup t id

/-- Boolean membership in a list of ids. -/
def memStr : List String → String → Bool
  | [], _ => false
  | h :: t, id => if h = id then true else memStr t id

/-- Remove the first occurrence of an id from a list. -/
def removeStr : List String → String → List String
  | [], _ => []
  | h :: t, id => if h = id then t else h :: removeStr t id

/-- The durable per-item rollup row (`property_metadata` in
`src/schema.sql`): first/last seen, last change, current status and
price, scrape and change counters. -/
structure ItemMetadata where
  firstSeen : Nat
  lastSeen : Nat
  lastChanged : Option Nat
  currentStatus : String
  currentPrice : Option Int
  scrapeCount : Nat
  changeCount : Nat
  deriving DecidableEq, Repr

/-- The argument record of `db.updatePropertyMetadata` as passed by the
worker and the verifier. -/
structure MetadataUpdate where
  lastSeen : Nat
  currentStatus : String
  currentPrice : Option Int
  hasChanges : Bool
  deriving DecidableEq, Repr

/-- Combined observable state of the fast store (RedisQueue), the
durable store (ScraperDatabase), the downstream-collaborator call
traces, and the per-worker counters.  Timestamps are abstract `Nat`
ticks. -/
structure WState where
  pending : List String
  processedSet : List String
  failedSet : List (String × String)
  retries : List (String × Nat)
  fingerprints : List (String × String)
  redisSnapshots : List (String × Property)
  lastSeen : List (String × Nat)
  verifiedInactive : List String
  dbSnapshots : List (String × Property × String)
  metadata : List (String × ItemMetadata)
  ingestEvents : List (String × Property)
  inactiveEvents : List (String × String)
  processedCount : Nat
  failedCount : Nat
  changedCount : Nat
  unchangedCount : Nat
  verifiedCount : Nat
  activeCount : Nat
  inactiveCount : Nat
  deriving DecidableEq, Repr

/-- The empty initial state: nothing pending, nothing processed, no
history. -/
def WState.init : WState :=
  { pending := [], processedSet := [], failedSet := [], retries := [],
    fingerprints := [], redisSnapshots := [], lastSeen := [],
    verifiedInactive := [], dbSnapshots := [], metadata := [],
    ingestEvents := [], inactiveEvents := [],
    processedCount := 0, failedCount := 0, changedCount := 0,
    unchangedCount := 0, verifiedCount := 0, activeCount := 0,
    inactiveCount := 0 }

/-- Modelled from the spec: `RedisQueue.isProcessed` (the `redis-queue`
module is not in the snapshot) — true if a consumer already completed
this identifier in the current cycle. -/
def isProcessed (st : WState) (id : String) : Bool :=
  memStr st.processedSet id

/-- Modelled from the spec: `RedisQueue.markProcessed` — terminal
success mark for an attempt. -/
def markProcessed (st : WState) (id : String) : WState :=
  { st with processedSet := id :: st.processedSet }

/-- Modelled from the spec: `RedisQueue.markFailed` — the id lands in a
separately inspectable failed set with its reason, not the pending
set. -/
def markFailed (st : WState) (id : String) (reason : String) : WState :=
  { st with failedSet := (id, reason) :: st.failedSet }

/-- Modelled from the spec: `RedisQueue.getRetryCount` — attempts
tracked per id, zero when never retried. -/
def getRetryCount (st : WState) (id : String) : Nat :=
  (assocLookup st.retries id).getD 0

/-- Modelled from the spec: `RedisQueue.requeueWithRetry` — re-inserts
the id into the pending list and bumps its retry counter, only while
the counter is below `maxAttempts`. -/
def requeueWithRetry (st : WState) (id : String) (maxAttempts : Nat) : WState :=
  if getRetryCount st id < maxAttempts then
    { st with retries := (id, getRetryCount st id + 1) :: st.retries,
              pending := id :: st.pending }
  else st

/-- Modelled from the spec: `RedisQueue.updateLastSeen` — refreshes the
timestamp used later by verification to find stale items. -/
def updateLastSeen (st : WState) (id : String) (now : Nat) : WState :=
  { st with lastSeen := (id, now) :: st.lastSeen }

/-- Modelled from the spec: `RedisQueue.hasPropertyChanged` — compares
the fingerprint of the fetched record against the last cached
fingerprint for the id; with no prior fingerprint the item counts as
new, hence changed. -/
def hasPropertyChanged (st : WState) (id : String) (p : Property) : Bool :=
  match assocLookup st.fingerprints id with
  | none => true
  | some fp => decide (fp ≠ calculateChecksum p)

/-- Modelled from the spec: `RedisQueue.storePropertySnapshot` — caches
the record and its fingerprint in the fast store. -/
def storePropertySnapshot (st : WState) (id : String) (p : Property) : WState :=
  { st with redisSnapshots := (id, p) :: st.redisSnapshots,
            fingerprints := (id, calculateChecksum p) :: st.fingerprints }

/-- Modelled from the spec: `RedisQueue.markVerifiedInactive` — records
that verification confirmed removal (distinct from `markFailed`). -/
def markVerifiedInactive (st : WState) (id : String) : WState :=
  { st with verifiedInactive := id :: st.verifiedInactive }

/-- Modelled from the spec: `ScraperDatabase.storeSnapshot` (the
`database` module is not in the snapshot) — appends an immutable
snapshot row for the id with the given checksum. -/
def storeSnapshot (st : WState) (id : String) (p : Property) (checksum : String) : WState :=
  { st with dbSnapshots := (id, p, checksum) :: st.dbSnapshots }

/-- Modelled from the spec: `ScraperDatabase.updatePropertyMetadata` —
upsert of the per-item rollup: on first processing the row is created
with `scrape_count = 1`; afterwards `scrape_count` always increments
and `change_count` increments only when the update reports a change. -/
def updatePropertyMetadata (st : WState) (id : String) (u : MetadataUpdate) : WState :=
  match assocLookup st.metadata id with
  | none =>
      let m : ItemMetadata :=
        { firstSeen := u.lastSeen, lastSeen := u.lastSeen,
          lastChanged := if u.hasChanges then some u.lastSeen else none,
          currentStatus := u.currentStatus, currentPrice := u.currentPrice,
          scrapeCount := 1, changeCount := if u.hasChanges then 1 else 0 }
      { st with metadata := (id, m) :: st.metadata }
  | some m =>
      let m2 : ItemMetadata :=
        { m with lastSeen := u.lastSeen,
                 lastChanged := if u.hasChanges then some u.lastSeen else m.lastChanged,
                 currentStatus := u.currentStatus, currentPrice := u.currentPrice,
                 scrapeCount := m.scrapeCount + 1,
                 changeCount := m.changeCount + (if u.hasChanges then 1 else 0) }
      { st with metadata := (id, m2) :: st.metadata }

/-- Invocation trace of `sendToCoreService(createIngestionPayload(p, p))`
(`src/core.ts`, `src/transformer.ts`): the payload carries
`portal_id = p.id` and the record itself. -/
def sendIngest (st : WState) (p : Property) : WState :=
  { st with ingestEvents := (p.id, p) :: st.ingestEvents }

/-- Environment of one `processListing` attempt: what the external
fetcher returns (`fetchPropertyDetail` catches its own errors and
returns `null`, hence `Option`), and whether the downstream ingestion
call or the durable-store calls throw during this attempt. -/
structure WorkerEnv where
  fetch : Option Property
  ingestThrows : Bool
  dbThrows : Bool
  deriving DecidableEq, Repr

/-- The `try` block of `ImmobiliareWorker.processListing` (second
document of `src/schema.sql`, lines 315-369), with a thrown exception
modelled as `Except.error` carrying the state mutated so far:
check `isProcessed`; on a `null` fetch `markFailed` immediately and
bump the failed counter; otherwise run change detection, and on a
change send the ingestion payload, cache the snapshot, and store a
durable snapshot; finally mark processed, refresh last-seen, and
upsert the metadata row. -/
def processListingTry (env : WorkerEnv) (now : Nat) (st : WState) (id : String) :
    Except WState (Bool × WState) :=
  if isProcessed st id then Except.ok (true, st)
  else
    match env.fetch with
    | none =>
        let stA := markFailed st id "No data returned"
        Except.ok (false, { stA with failedCount := stA.failedCount + 1 })
    | some property =>
        let hasChanged := hasPropertyChanged st id property
        let branch : Except WState WState :=
          if hasChanged then
            if env.ingestThrows then Except.error st
            else
              let st1 := sendIngest st property
              let st2 := storePropertySnapshot st1 id property
              let checksum := calculateChecksum property
              if env.dbThrows then Except.error st2
              else
                let st3 := storeSnapshot st2 id property checksum
                Except.ok { st3 with changedCount := st3.changedCount + 1 }
          else
            Except.ok { st with unchangedCount := st.unchangedCount + 1 }
        match branch with
        | Except.error s => Except.error s
        | Except.ok st4 =>
            let st5 := markProcessed st4 id
            let st6 := updateLastSeen st5 id now
            if env.dbThrows then Except.error st6
            else
              let st7 := updatePropertyMetadata st6 id
                { lastSeen := now, currentStatus := "active",
                  currentPrice := some property.price, hasChanges := hasChanged }
              Except.ok (true, { st7 with processedCount := st7.processedCount + 1 })

/-- The `catch` block of `processListing` (second document of
`src/schema.sql`, lines 370-384): read the stored retry count; below 3,
requeue with redelivery; at the threshold, `markFailed` with the
stringified error (abstracted here as the text `"error"`) and bump the
failed counter. -/
def processListingCatch (st : WState) (id : String) : WState :=
  let retryCount := getRetryCount st id
  if retryCount < 3 then requeueWithRetry st id 3
  else
    let stA := markFailed st id "error"
    { stA with failedCount := stA.failedCount + 1 }

/-- Embedding of `ImmobiliareWorker.processListing`: the `try` body,
with any thrown exception routed to the retry-or-fail handler; the call
returns `false` after a handled exception. -/
def processListing (env : WorkerEnv) (now : Nat) (st : WState) (id : String) :
    Bool × WState :=
  match processListingTry env now st id with
  | Except.ok r => r
  | Except.error s => (false, processListingCatch s id)

/-- One pass of the worker loop for a fixed id: the blocking pop removes
the id from the pending list, then `processListing` runs on it. -/
def workerStep (env : WorkerEnv) (now : Nat) (id : String) (st : WState) : WState :=
  (processListing env now { st with pending := removeStr st.pending id } id).2

/-- Iterated worker passes. -/
def workerSteps (env : WorkerEnv) (now : Nat) (id : String) : Nat → WState → WState
  | 0, st => st
  | n + 1, st => workerSteps env now id n (workerStep env now id st)

/-- Outcome of the existence probe (`axios.head` in
`ImmobiliareVerifier.verifyProperty`): either an HTTP status code was
obtained, or the request failed with a network-level error. -/
inductive ProbeOutcome where
  | status (code : Nat)
  | netError
  deriving DecidableEq, Repr

/-- Embedding of `ImmobiliareVerifier.verifyProperty`
(`src/worker-verifier.ts`, lines 46-64): the request validates statuses
below 500 (so a 5xx makes axios throw), a caught error yields `true`
(assume the listing still exists), and otherwise the listing exists
exactly when the status is 200. -/
def verifyProperty : ProbeOutcome → Bool
  | ProbeOutcome.netError => true
  | ProbeOutcome.status code => if 500 ≤ code then true else decide (code = 200)

/-- An erroring probe in the sense of the claims: a network failure, or
a 5xx response (which the axios call surfaces as a thrown error). -/
def probeIsErr : ProbeOutcome → Bool
  | ProbeOutcome.netError => true
  | ProbeOutcome.status code => decide (500 ≤ code)

/-- Embedding of `markPropertyInactive` (`src/core.ts`, lines 40-55) at
the level of its observable downstream effect: one `markInactive`
notification for the id with the given reason. -/
def markPropertyInactive (st : WState) (id : String) (reason : String) : WState :=
  { st with inactiveEvents := (id, reason) :: st.inactiveEvents }

/-- Environment of one verification: the probe outcome, and whether the
downstream notification call throws after being invoked. -/
structure VerifierEnv where
  probe : ProbeOutcome
  coreThrows : Bool
  deriving DecidableEq, Repr

/-- Embedding of `ImmobiliareVerifier.processVerification`
(`src/worker-verifier.ts`, lines 69-105): probe the listing; if it
still exists, refresh its last-seen timestamp; if it is gone, mark it
verified-inactive in the fast store, notify the downstream service with
reason `"verified_removed"`, and upsert the metadata row with status
`"inactive"` and the price cleared.  The surrounding `catch` only logs,
so a downstream throw skips the remaining steps of the current
verification. -/
def processVerification (env : VerifierEnv) (now : Nat) (st : WState) (id : String) :
    WState :=
  let stillThere := verifyProperty env.probe
  if stillThere then
    let st1 := updateLastSeen st id now
    let st2 := { st1 with activeCount := st1.activeCount + 1 }
    { st2 with verifiedCount := st2.verifiedCount + 1 }
  else
    let st1 := markVerifiedInactive st id
    let st2 := markPropertyInactive st1 id "verified_removed"
    if env.coreThrows then st2
    else
      let st3 := updatePropertyMetadata st2 id
        { lastSeen := now, currentStatus := "inactive",
          currentPrice := none, hasChanges := false }
      let st4 := { st3 with inactiveCount := st3.inactiveCount + 1 }
      { st4 with verifiedCount := st4.verifiedCount + 1 }

/-- Outcome of one `scrapeCity` call as observed by `scrapeAllCities`:
either it returned normally with a count of discovered ids, or it threw
and the per-city `catch` swallowed the error. -/
inductive CityOutcome where
  | ok (count : Nat)
  | err
  deriving DecidableEq, Repr

/-- The finalized discovery-run record (`scrape_runs` row of
`src/schema.sql` as completed by `completeScrapeRun`). -/
structure ScrapeRun where
  status : String
  propertiesDiscovered : Nat
  propertiesChanged : Nat
  propertiesUnchanged : Nat
  propertiesNew : Nat
  propertiesInactive : Nat
  errorsCount : Nat
  deriving DecidableEq, Repr

/-- Modelled from the spec: `ScraperDatabase.completeScrapeRun` (the
`database` module is not in the snapshot) — finalizes the run record
with the given counts and status `"completed"`. -/
def completeScrapeRun (discovered changed unchanged fresh inactive errors : Nat) :
    ScrapeRun :=
  { status := "completed", propertiesDiscovered := discovered,
    propertiesChanged := changed, propertiesUnchanged := unchanged,
    propertiesNew := fresh, propertiesInactive := inactive,
    errorsCount := errors }

/-- The per-city loop of `ImmobiliareCoordinator.scrapeAllCities`
(`src/unnamed/part_000`, lines 298-310): each city's `scrapeCity` call
runs inside a `try` whose `catch` only logs and continues with the next
city; a successful call adds its count to the running total, a swallowed
error adds nothing. -/
def cityLoop (env : String → CityOutcome) : List String → Nat → Nat
  | [], total => total
  | c :: rest, total =>
      match env c with
      | CityOutcome.ok n => cityLoop env rest (total + n)
      | CityOutcome.err => cityLoop env rest total

/-- Embedding of `ImmobiliareCoordinator.scrapeAllCities`
(`src/unnamed/part_000`, lines 293-327): loop over the cities with
per-city error swallowing, then finalize the run with
`propertiesDiscovered = propertiesNew = totalDiscovered` and — verbatim
from line 319 of the source — `errorsCount := 0`. -/
def scrapeAllCities (env : String → CityOutcome) (cities : List String) : ScrapeRun :=
  let totalDiscovered := cityLoop env cities 0
  completeScrapeRun totalDiscovered 0 0 totalDiscovered 0 0

/-- Number of per-city failures swallowed during a pass. -/
def swallowedErrors (env : String → CityOutcome) (cities : List String) : Nat :=
  (cities.filter (fun c => env c = CityOutcome.err)).length

/-- Total of the counts returned by the cities whose `scrapeCity` call
succeeded. -/
def okDiscovered (env : String → CityOutcome) (cities : List String) : Nat :=
  (cities.map (fun c =>
    match env c with
    | CityOutcome.ok n => n
    | CityOutcome.err => 0)).sum

/-- Rounding as performed by JavaScript `Math.round`: round half toward
positive infinity. -/
def jsRound (q : Rat) : Int := Int.floor (q + 1 / 2)

/-- Embedding of `calculatePricePerSqm` (`src/transformer.ts`, lines
319-324): `undefined` when `sqm` is absent or zero (the `!sqm` guard;
`NaN`, the only other falsy number, has no counterpart in `Rat`),
otherwise `Math.round(price / sqm)`. -/
def calculatePricePerSqm (price : Rat) (sqm : Option Rat) : Option Int :=
  match sqm with
  | none => none
  | some s => if s = 0 then none else some (jsRound (price / s))

/-- The slice of `StandardProperty` (`src/transformer.ts`) the claims
observe: the directly copied scalar fields and the derived
`price_per_sqm`. -/
structure StandardProperty where
  title : String
  price : Int
  currency : String
  sqm : Option Rat
  price_per_sqm : Option Int
  status : String
  deriving DecidableEq, Repr

/-- Embedding of `transformToStandard` (`src/transformer.ts`, lines
329-388) restricted to the fields of `StandardProperty` above; in
particular `price_per_sqm := calculatePricePerSqm(property.price,
property.details?.sqm)` verbatim from line 373.  The fields produced by
the regex-extraction helpers are outside every claim's scope and are
not modelled. -/
def transformToStandard (p : Property) : StandardProperty :=
  { title := p.title, price := p.price, currency := p.currency,
    sqm := p.details.sqm,
    price_per_sqm := calculatePricePerSqm (p.price : Rat) p.details.sqm,
    status := "active" }

/-- A representative parsed listing used to instantiate witnesses. -/
def sampleDetails : PropertyDetails :=
  { bedrooms := none, bathrooms := none, sqm := none, floor := none,
    totalFloors := none, rooms := none, description := none }

/-- A representative location used to instantiate witnesses. -/
def sampleLoc : PropertyLocation :=
  { address := none, city := "milano", region := none, country := "Italy" }

/-- A representative listing used to instantiate witnesses. -/
def sampleProp : Property :=
  { id := "123", url := "https://www.immobiliare.it/annunci/123/",
    title := "Appartamento", price := 250000, currency := "EUR",
    propertyType := "Appartamento", transactionType := "sale",
    location := sampleLoc, details := sampleDetails, features := [],
    images := [], description := some "Bel appartamento",
    scrapedAt := "2024-01-01T00:00:00Z" }

/-- Claim C5 (confirmed): when `isProcessed(id)` already holds,
`processListing` returns success immediately and the entire observable
state — queue sets, retry counters, snapshots, metadata, downstream
traces and counters — is left exactly as it was. -/
theorem c5_processed_skip (env : WorkerEnv) (now : Nat) (st : WState) (id : String)
    (h : isProcessed st id = true) :
    processListing env now st id = (true, st) := by
  simp [processListing, processListingTry, h]

/-- Witness for claim C5 at a concrete already-processed id. -/
theorem c5_processed_skip_witness :
    processListing { fetch := none, ingestThrows := false, dbThrows := false } 7
      { WState.init with processedSet := ["123"] } "123" =
      (true, { WState.init with processedSet := ["123"] }) :=
  c5_processed_skip _ 7 _ "123" (by decide)

/-- Claim C6 (confirmed): `calculateChecksum` is a function of the
fields `price`, `title` and `description` only — two records agreeing
on those three fields get identical tokens whatever their other fields
(images, location, scrape timestamp, ...) contain. -/
theorem c6_checksum_content_fields_only (p q : Property)
    (hp : p.price = q.price) (ht : p.title = q.title)
    (hd : p.description = q.description) :
    calculateChecksum p = calculateChecksum q := by
  simp [calculateChecksum, hp, ht, hd]

/-- Witness for claim C6: two listings that differ in images, scrape
timestamp and city but agree on the three content fields share the
checksum. -/
theorem c6_checksum_witness :
    ({ sampleProp with images := ["a.jpg"] } : Property).images ≠
      ({ sampleProp with scrapedAt := "2024-06-30T00:00:00Z" } : Property).images ∧
    ({ sampleProp with images := ["a.jpg"] } : Property).scrapedAt ≠
      ({ sampleProp with scrapedAt := "2024-06-30T00:00:00Z" } : Property).scrapedAt ∧
    calculateChecksum { sampleProp with images := ["a.jpg"] } =
      calculateChecksum { sampleProp with scrapedAt := "2024-06-30T00:00:00Z" } :=
  ⟨by decide, by decide,
   c6_checksum_content_fields_only _ _ rfl rfl rfl⟩

/-- Claim C7 (confirmed): the truncated-base64 token is not
collision-resistant — two listings with equal price and title but
different descriptions share the token, because 32 base64 characters
cover only the first 24 bytes of the serialized JSON. -/
theorem c7_checksum_collision :
    ∃ p q : Property, p.price = q.price ∧ p.title = q.title ∧
      p.description ≠ q.description ∧
      calculateChecksum p = calculateChecksum q :=
  ⟨{ sampleProp with description := some "grande terrazzo" },
   { sampleProp with description := some "da ristrutturare" },
   rfl, rfl, by decide, by decide⟩

/-- Claim C1 (corrected): a `null` fetcher result does NOT enter the
retry-with-redelivery path — `processListing` immediately records
`markFailed(id, "No data returned")` and increments the failed counter
on that same attempt, leaving the pending list and the retry counter
untouched. -/
theorem c1_null_fetch_fails_immediately (env : WorkerEnv) (now : Nat) (st : WState)
    (id : String) (hp : isProcessed st id = false) (hf : env.fetch = none) :
    processListing env now st id =
      (false, { st with failedSet := (id, "No data returned") :: st.failedSet,
                        failedCount := st.failedCount + 1 }) := by
  simp [processListing, processListingTry, hp, hf, markFailed]

/-- Witness for the corrected claim C1 at a concrete fresh state. -/
theorem c1_null_fetch_witness :
    processListing { fetch := none, ingestThrows := false, dbThrows := false } 0
      WState.init "123" =
      (false, { WState.init with failedSet := [("123", "No data returned")],
                                 failedCount := 1 }) :=
  c1_null_fetch_fails_immediately _ 0 _ "123" (by decide) rfl

/-- Counterexample to claim C1 as stated: on the very first attempt for
a fresh id whose fetch returns `null`, the failed mark is recorded at
once — the retry counter is still `0` (no retries were attempted, let
alone exhausted) and the id was not requeued. -/
theorem c1_counterexample :
    (processListing { fetch := none, ingestThrows := false, dbThrows := false } 0
        WState.init "123").2.failedSet = [("123", "No data returned")] ∧
    (processListing { fetch := none, ingestThrows := false, dbThrows := false } 0
        WState.init "123").2.failedCount = 1 ∧
    getRetryCount (processListing { fetch := none, ingestThrows := false, dbThrows := false } 0
        WState.init "123").2 "123" = 0 ∧
    (processListing { fetch := none, ingestThrows := false, dbThrows := false } 0
        WState.init "123").2.pending = [] := by
  decide

/-- Claim C8 (confirmed): when the existence probe errors (network
failure, or a 5xx that the HTTP client surfaces as a thrown error),
`verifyProperty` answers `true` and `processVerification` neither marks
the id verified-inactive, nor notifies the downstream `markInactive`,
nor touches the item's metadata. -/
theorem c8_probe_error_conservative (env : VerifierEnv) (now : Nat) (st : WState)
    (id : String) (h : probeIsErr env.probe = true) :
    verifyProperty env.probe = true ∧
    (processVerification env now st id).verifiedInactive = st.verifiedInactive ∧
    (processVerification env now st id).inactiveEvents = st.inactiveEvents ∧
    (processVerification env now st id).metadata = st.metadata := by
  have hv : verifyProperty env.probe = true := by
    cases hp : env.probe with
    | netError => rfl
    | status code =>
        rw [hp] at h
        simp only [probeIsErr, decide_eq_true_eq] at h
        simp [verifyProperty, h]
  refine ⟨hv, ?_, ?_, ?_⟩ <;> simp [processVerification, hv, updateLastSeen]

/-- Witness for claim C8 at a concrete network failure. -/
theorem c8_probe_error_witness :
    verifyProperty ProbeOutcome.netError = true ∧
    (processVerification { probe := ProbeOutcome.netError, coreThrows := false }
        30 WState.init "123").verifiedInactive = WState.init.verifiedInactive ∧
    (processVerification { probe := ProbeOutcome.netError, coreThrows := false }
        30 WState.init "123").inactiveEvents = WState.init.inactiveEvents ∧
    (processVerification { probe := ProbeOutcome.netError, coreThrows := false }
        30 WState.init "123").metadata = WState.init.metadata :=
  c8_probe_error_conservative { probe := ProbeOutcome.netError, coreThrows := false }
    30 WState.init "123" (by decide)

/-- Claim C9 (confirmed): when the probe definitively reports the item
absent (a non-200 status below 500), `processVerification` marks the id
verified-inactive, emits exactly one downstream `markInactive`
notification with reason `"verified_removed"`, and upserts the metadata
row with current status `"inactive"` and the price cleared. -/
theorem c9_definitive_absence (env : VerifierEnv) (now : Nat) (st : WState)
    (id : String) (code : Nat) (hp : env.probe = ProbeOutcome.status code)
    (hlt : code < 500) (hne : code ≠ 200) (hc : env.coreThrows = false) :
    ∃ m : ItemMetadata,
      (processVerification env now st id).verifiedInactive = id :: st.verifiedInactive ∧
      (processVerification env now st id).inactiveEvents =
        (id, "verified_removed") :: st.inactiveEvents ∧
      assocLookup (processVerification env now st id).metadata id = some m ∧
      m.currentStatus = "inactive" ∧ m.currentPrice = none := by
  have h500 : ¬ 500 ≤ code := Nat.not_le.mpr hlt
  have hv : verifyProperty env.probe = false := by
    simp [verifyProperty, hp, h500, hne]
  cases hmeta : assocLookup st.metadata id with
  | none =>
      refine ⟨{ firstSeen := now, lastSeen := now, lastChanged := none,
                currentStatus := "inactive", currentPrice := none,
                scrapeCount := 1, changeCount := 0 }, ?_, ?_, ?_, rfl, rfl⟩ <;>
        simp [processVerification, hv, hc, markVerifiedInactive, markPropertyInactive,
              updatePropertyMetadata, hmeta, assocLookup]
  | some m0 =>
      refine ⟨{ m0 with
                  lastSeen := now,
                  currentStatus := "inactive",
                  currentPrice := none,
                  scrapeCount := m0.scrapeCount + 1,
                  changeCount := m0.changeCount }, ?_, ?_, ?_, rfl, rfl⟩ <;>
        simp [processVerification, hv, hc, markVerifiedInactive, markPropertyInactive,
              updatePropertyMetadata, hmeta, assocLookup]

/-- Witness for claim C9 at a concrete 404 probe on a fresh state. -/
theorem c9_definitive_absence_witness :
    ∃ m : ItemMetadata,
      (processVerification { probe := ProbeOutcome.status 404, coreThrows := false }
          30 WState.init "123").verifiedInactive = "123" :: WState.init.verifiedInactive ∧
      (processVerification { probe := ProbeOutcome.status 404, coreThrows := false }
          30 WState.init "123").inactiveEvents =
        ("123", "verified_removed") :: WState.init.inactiveEvents ∧
      assocLookup (processVerification { probe := ProbeOutcome.status 404, coreThrows := false }
          30 WState.init "123").metadata "123" = some m ∧
      m.currentStatus = "inactive" ∧ m.currentPrice = none :=
  c9_definitive_absence { probe := ProbeOutcome.status 404, coreThrows := false }
    30 WState.init "123" 404 rfl (by decide) (by decide) rfl

/-- Claim C10 (confirmed): `transformToStandard` never divides by zero
when deriving `price_per_sqm` — the field is `undefined` exactly when
`details.sqm` is missing or zero, and equals `Math.round(price / sqm)`
for any nonzero `sqm`. -/
theorem c10_price_per_sqm_guard (p : Property) :
    ((p.details.sqm = none ∨ p.details.sqm = some 0) →
      (transformToStandard p).price_per_sqm = none) ∧
    (∀ s : Rat, p.details.sqm = some s → s ≠ 0 →
      (transformToStandard p).price_per_sqm =
        some (jsRound ((p.price : Rat) / s))) := by
  constructor
  · rintro (h | h) <;> simp [transformToStandard, calculatePricePerSqm, h]
  · intro s hs hne
    simp [transformToStandard, calculatePricePerSqm, hs, hne]

/-- Witness for claim C10: a listing without surface gets no
`price_per_sqm`, a 50 sqm listing priced 250000 gets one. -/
theorem c10_price_per_sqm_witness :
    (transformToStandard sampleProp).price_per_sqm = none ∧
    (transformToStandard
        { sampleProp with details := { sampleDetails with sqm := some 50 } }).price_per_sqm =
      some (jsRound ((({ sampleProp with
        details := { sampleDetails with sqm := some 50 } } : Property).price : Rat) / 50)) :=
  ⟨(c10_price_per_sqm_guard sampleProp).1 (Or.inl rfl),
   (c10_price_per_sqm_guard _).2 50 rfl (by norm_num)⟩

/-- Counterexample to claim C3 as stated: in a pass over two cities
where the first city's scrape throws (and is swallowed) and the second
succeeds, the finalized run's `errors_count` is `0`, not the number of
swallowed per-city failures (`1`). -/
theorem c3_counterexample :
    (scrapeAllCities
        (fun c => if c = "milano" then CityOutcome.err else CityOutcome.ok 5)
        ["milano", "roma"]).errorsCount ≠
      swallowedErrors
        (fun c => if c = "milano" then CityOutcome.err else CityOutcome.ok 5)
        ["milano", "roma"] ∧
    (scrapeAllCities
        (fun c => if c = "milano" then CityOutcome.err else CityOutcome.ok 5)
        ["milano", "roma"]).errorsCount = 0 ∧
    swallowedErrors
        (fun c => if c = "milano" then CityOutcome.err else CityOutcome.ok 5)
        ["milano", "roma"] = 1 := by
  refine ⟨?_, rfl, rfl⟩
  decide

/-- The running total accumulated by the per-city loop equals the
accumulator plus the total discovered by the successful cities. -/
theorem cityLoop_eq_okDiscovered (env : String → CityOutcome) :
    ∀ (cities : List String) (acc : Nat),
      cityLoop env cities acc = acc + okDiscovered env cities := by
  intro cities
  induction cities with
  | nil => intro acc; simp [cityLoop, okDiscovered]
  | cons c rest ih =>
      intro acc
      cases h : env c with
      | ok n => simp [cityLoop, okDiscovered, h, ih]; omega
      | err => simp [cityLoop, okDiscovered, h, ih]

/-- Claim C3 (corrected): per-city failures are indeed swallowed — the
run always completes and its discovered/new counts come from the
successful cities — but `completeScrapeRun` is invoked with a hard-coded
`errorsCount := 0`, so the finalized `errors_count` is `0` regardless of
how many per-city failures were swallowed during the pass. -/
theorem c3_errors_count_hardcoded_zero (env : String → CityOutcome)
    (cities : List String) :
    (scrapeAllCities env cities).status = "completed" ∧
    (scrapeAllCities env cities).errorsCount = 0 ∧
    (scrapeAllCities env cities).propertiesDiscovered = okDiscovered env cities ∧
    (scrapeAllCities env cities).propertiesNew = okDiscovered env cities := by
  refine ⟨rfl, rfl, ?_, ?_⟩ <;>
    simp [scrapeAllCities, completeScrapeRun, cityLoop_eq_okDiscovered]

/-- Metadata upserts do not touch the ingestion trace. -/
theorem updatePropertyMetadata_ingestEvents (st : WState) (id : String)
    (u : MetadataUpdate) :
    (updatePropertyMetadata st id u).ingestEvents = st.ingestEvents := by
  unfold updatePropertyMetadata
  cases assocLookup st.metadata id <;> rfl

/-- Metadata upserts do not touch the durable snapshot log. -/
theorem updatePropertyMetadata_dbSnapshots (st : WState) (id : String)
    (u : MetadataUpdate) :
    (updatePropertyMetadata st id u).dbSnapshots = st.dbSnapshots := by
  unfold updatePropertyMetadata
  cases assocLookup st.metadata id <;> rfl

/-- Metadata upserts do not touch the fast-store snapshot cache. -/
theorem updatePropertyMetadata_redisSnapshots (st : WState) (id : String)
    (u : MetadataUpdate) :
    (updatePropertyMetadata st id u).redisSnapshots = st.redisSnapshots := by
  unfold updatePropertyMetadata
  cases assocLookup st.metadata id <;> rfl

/-- Claim C4 (confirmed): on a successful, exception-free fetch, the
ingestion payload is forwarded and snapshots (fast store and durable
store) are persisted if and only if the change detector reports a
change; an unchanged record triggers no ingest call and no new
snapshot. -/
theorem c4_change_gated_effects (now : Nat) (st : WState) (id : String) (p : Property)
    (hp : isProcessed st id = false) :
    (hasPropertyChanged st id p = true →
      (processListing { fetch := some p, ingestThrows := false, dbThrows := false }
          now st id).2.ingestEvents = (p.id, p) :: st.ingestEvents ∧
      (processListing { fetch := some p, ingestThrows := false, dbThrows := false }
          now st id).2.dbSnapshots = (id, p, calculateChecksum p) :: st.dbSnapshots ∧
      (processListing { fetch := some p, ingestThrows := false, dbThrows := false }
          now st id).2.redisSnapshots = (id, p) :: st.redisSnapshots) ∧
    (hasPropertyChanged st id p = false →
      (processListing { fetch := some p, ingestThrows := false, dbThrows := false }
          now st id).2.ingestEvents = st.ingestEvents ∧
      (processListing { fetch := some p, ingestThrows := false, dbThrows := false }
          now st id).2.dbSnapshots = st.dbSnapshots ∧
      (processListing { fetch := some p, ingestThrows := false, dbThrows := false }
          now st id).2.redisSnapshots = st.redisSnapshots) := by
  constructor <;> intro hch <;>
    refine ⟨?_, ?_, ?_⟩ <;>
      simp [processListing, processListingTry, hp, hch, sendIngest,
            storePropertySnapshot, storeSnapshot, markProcessed, updateLastSeen,
            updatePropertyMetadata_ingestEvents, updatePropertyMetadata_dbSnapshots,
            updatePropertyMetadata_redisSnapshots]

/-- Witness for claim C4: a fresh id counts as changed, so one ingest
event and both snapshots are recorded. -/
theorem c4_change_gated_witness :
    (processListing { fetch := some sampleProp, ingestThrows := false, dbThrows := false }
        0 WState.init "123").2.ingestEvents = (sampleProp.id, sampleProp) :: WState.init.ingestEvents ∧
    (processListing { fetch := some sampleProp, ingestThrows := false, dbThrows := false }
        0 WState.init "123").2.dbSnapshots =
      ("123", sampleProp, calculateChecksum sampleProp) :: WState.init.dbSnapshots ∧
    (processListing { fetch := some sampleProp, ingestThrows := false, dbThrows := false }
        0 WState.init "123").2.redisSnapshots = ("123", sampleProp) :: WState.init.redisSnapshots :=
  (c4_change_gated_effects 0 WState.init "123" sampleProp (by decide)).1 (by decide)

/-- The environment of an always-failing attempt: the fetch succeeds
but the downstream ingestion call throws (spec section 7: a downstream
ingestion failure folds into the same retry/fail path as a fetch
error). -/
def c2Env (p : Property) (d : Bool) : WorkerEnv :=
  { fetch := some p, ingestThrows := true, dbThrows := d }

/-- State after n passes of the worker loop over a fresh system for an
id whose processing always raises. -/
def c2State (p : Property) (d : Bool) (id : String) (n : Nat) : WState :=
  workerSteps (c2Env p d) 0 id n WState.init

/-- Unfolding of the iterated loop from the far end. -/
theorem workerSteps_succ_last (env : WorkerEnv) (now : Nat) (id : String) :
    ∀ (n : Nat) (st : WState),
      workerSteps env now id (n + 1) st =
        workerStep env now id (workerSteps env now id n st) := by
  intro n
  induction n with
  | zero => intro st; rfl
  | succ k ih => intro st; exact ih (workerStep env now id st)

/-- Successor unfolding of `c2State`. -/
theorem c2State_succ (p : Property) (d : Bool) (id : String) (n : Nat) :
    c2State p d id (n + 1) = workerStep (c2Env p d) 0 id (c2State p d id n) :=
  workerSteps_succ_last (c2Env p d) 0 id n WState.init

/-- Under the always-failing environment, a pass over a state with no
processed mark and no cached fingerprint always lands in the catch
handler. -/
theorem c2_step_eq (p : Property) (d : Bool) (id : String) (st : WState)
    (h1 : st.processedSet = []) (h2 : st.fingerprints = []) :
    workerStep (c2Env p d) 0 id st =
      processListingCatch { st with pending := removeStr st.pending id } id := by
  simp [workerStep, processListing, processListingTry, isProcessed, memStr, h1, h2,
        hasPropertyChanged, assocLookup, c2Env]

/-- First pass: the caught exception requeues the id with retry count 1. -/
theorem c2_state_one (p : Property) (d : Bool) (id : String) :
    c2State p d id 1 = { WState.init with pending := [id], retries := [(id, 1)] } := by
  simp [c2State, workerSteps, workerStep, processListing, processListingTry,
        processListingCatch, isProcessed, memStr, hasPropertyChanged, assocLookup,
        getRetryCount, requeueWithRetry, removeStr, WState.init, c2Env]

/-- Second pass: requeued again with retry count 2. -/
theorem c2_state_two (p : Property) (d : Bool) (id : String) :
    c2State p d id 2 =
      { WState.init with pending := [id], retries := [(id, 2), (id, 1)] } := by
  rw [show (2 : Nat) = 1 + 1 from rfl, c2State_succ, c2_state_one]
  simp [workerStep, processListing, processListingTry, processListingCatch,
        isProcessed, memStr, hasPropertyChanged, assocLookup, getRetryCount,
        requeueWithRetry, removeStr, WState.init, c2Env]

/-- Third pass: requeued a third time with retry count 3. -/
theorem c2_state_three (p : Property) (d : Bool) (id : String) :
    c2State p d id 3 =
      { WState.init with pending := [id],
                         retries := [(id, 3), (id, 2), (id, 1)] } := by
  rw [show (3 : Nat) = 2 + 1 from rfl, c2State_succ, c2_state_two]
  simp [workerStep, processListing, processListingTry, processListingCatch,
        isProcessed, memStr, hasPropertyChanged, assocLookup, getRetryCount,
        requeueWithRetry, removeStr, WState.init, c2Env]

/-- Fourth pass: the retry counter has reached the bound, so the catch
handler records the failure instead of requeueing. -/
theorem c2_state_four (p : Property) (d : Bool) (id : String) :
    c2State p d id 4 =
      { WState.init with retries := [(id, 3), (id, 2), (id, 1)],
                         failedSet := [(id, "error")], failedCount := 1 } := by
  rw [show (4 : Nat) = 3 + 1 from rfl, c2State_succ, c2_state_three]
  simp [workerStep, processListing, processListingTry, processListingCatch,
        isProcessed, memStr, hasPropertyChanged, assocLookup, getRetryCount,
        requeueWithRetry, markFailed, removeStr, WState.init, c2Env]

/-- Once the retry counter sits at the bound and the id is out of the
pending list, every further pass only appends to the failed set. -/
theorem c2_stuck_step (p : Property) (d : Bool) (id : String) (st : WState)
    (h1 : st.pending = []) (h2 : st.processedSet = []) (h3 : st.fingerprints = [])
    (h4 : getRetryCount st id = 3) :
    workerStep (c2Env p d) 0 id st =
      { st with failedSet := (id, "error") :: st.failedSet,
                failedCount := st.failedCount + 1 } := by
  obtain ⟨pend, proc, fail, retr, fp, rsnap, ls, vi, dsnap, meta, ing, ina,
    pc, fc, cc, uc, vc, ac, ic⟩ := st
  simp only at h1 h2 h3
  subst h1 h2 h3
  simp only [getRetryCount] at h4
  simp [workerStep, processListing, processListingTry, processListingCatch,
        isProcessed, memStr, hasPropertyChanged, assocLookup, getRetryCount,
        markFailed, removeStr, c2Env, h4]

/-- From the fourth pass on, the id stays out of the pending list and in
the failed set. -/
theorem c2_stuck_invariant (p : Property) (d : Bool) (id : String) :
    ∀ k : Nat,
      (c2State p d id (4 + k)).pending = [] ∧
      (c2State p d id (4 + k)).processedSet = [] ∧
      (c2State p d id (4 + k)).fingerprints = [] ∧
      getRetryCount (c2State p d id (4 + k)) id = 3 ∧
      (id, "error") ∈ (c2State p d id (4 + k)).failedSet := by
  intro k
  induction k with
  | zero =>
      rw [show 4 + 0 = 4 from rfl, c2_state_four]
      refine ⟨rfl, rfl, rfl, ?_, ?_⟩ <;>
        simp [getRetryCount, assocLookup, WState.init]
  | succ k ih =>
      obtain ⟨h1, h2, h3, h4, h5⟩ := ih
      rw [show 4 + (k + 1) = (4 + k) + 1 from rfl, c2State_succ,
          c2_stuck_step p d id _ h1 h2 h3 h4]
      refine ⟨h1, h2, h3, ?_, ?_⟩
      · simpa [getRetryCount] using h4
      · simp [h5]

/-- Claim C2 (confirmed): an identifier whose processing always raises
(here: the downstream ingestion call throws on every attempt, for any
behavior of the database flag) is requeued on each caught exception
while the stored retry count is below 3 — so exactly `maxAttempts = 3`
requeues, the counter reading n after the n-th pass — and on the next
pass the catch handler instead records `markFailed` with the error
detail; from then on the id sits in the failed set and is never
re-inserted into the pending list. -/
theorem c2_retry_exhaustion (p : Property) (d : Bool) (id : String) (n : Nat) :
    (n ≤ 3 → getRetryCount (c2State p d id n) id = n ∧
      (c2State p d id n).failedSet = [] ∧
      (1 ≤ n → (c2State p d id n).pending = [id])) ∧
    (4 ≤ n → (c2State p d id n).pending = [] ∧
      (id, "error") ∈ (c2State p d id n).failedSet) := by
  constructor
  · intro hn
    interval_cases n
    · refine ⟨?_, rfl, ?_⟩
      · simp [c2State, workerSteps, WState.init, getRetryCount, assocLookup]
      · omega
    · rw [c2_state_one]
      refine ⟨?_, rfl, fun _ => rfl⟩
      simp [getRetryCount, assocLookup]
    · rw [c2_state_two]
      refine ⟨?_, rfl, fun _ => rfl⟩
      simp [getRetryCount, assocLookup]
    · rw [c2_state_three]
      refine ⟨?_, rfl, fun _ => rfl⟩
      simp [getRetryCount, assocLookup]
  · intro hn
    obtain ⟨k, rfl⟩ : ∃ k : Nat, n = 4 + k := ⟨n - 4, by omega⟩
    obtain ⟨h1, _, _, _, h5⟩ := c2_stuck_invariant p d id k
    exact ⟨h1, h5⟩

/-- Witness for claim C2: after the fourth pass on a concrete
always-failing id, it is out of the pending list and in the failed
set; after the third pass its retry counter reads exactly 3. -/
theorem c2_retry_exhaustion_witness :
    (getRetryCount (c2State sampleProp false "123" 3) "123" = 3 ∧
      (c2State sampleProp false "123" 3).failedSet = [] ∧
      (1 ≤ 3 → (c2State sampleProp false "123" 3).pending = ["123"])) ∧
    ((c2State sampleProp false "123" 4).pending = [] ∧
      ("123", "error") ∈ (c2State sampleProp false "123" 4).failedSet) :=
  ⟨(c2_retry_exhaustion sampleProp false "123" 3).1 (by decide),
   (c2_retry_exhaustion sampleProp false "123" 4).2 (by decide)⟩
